import Mathlib

/-!
Shallow embedding of the two scripts of the yolov8trt repository:
  * src/ultralytics/yolo/utils/benchmarks.py  (run_benchmarks)
  * src/yolo.py                               (CLI argument parsing and dispatch)
Machine floats of the source are modelled as rationals; external library
calls (model.export, export.val, file_size, eval) are modelled as oracle
inputs, and exceptions as an explicit error type.
-/

deriving instance DecidableEq for Except

/-- A Python exception as far as the scripts observe it: the source only
distinguishes AssertionError (by exact type) from every other exception,
and formats the message. -/
inductive PyExc where
  | assertionError (msg : String)
  | other (tyName : String) (msg : String)
  deriving DecidableEq

/-- Embeds the source test type(e) is AssertionError. -/
def PyExc.isAssert : PyExc → Bool
  | .assertionError _ => true
  | .other _ _ => false

/-- The message text interpolated by the f-strings of the source. -/
def PyExc.text : PyExc → String
  | .assertionError m => m
  | .other _ m => m

/-- One row of the export-format table iterated by run_benchmarks:
(name, format argument, file suffix, CPU-support flag, GPU-support flag). -/
structure FormatRow where
  name : String
  format : String
  suffix : String
  cpu : Bool
  gpu : Bool
  deriving DecidableEq

/-- One row appended to the results list y of run_benchmarks. -/
structure ResultRow where
  name : String
  status : String
  size : Option ℚ
  metric : Option ℚ
  speed : Option ℚ
  deriving DecidableEq

/-- Ambient state of a run_benchmarks call that the loop body reads:
platform.system() == Darwin, device.type, model.task, model.ckpt_path. -/
structure BenchEnv where
  darwin : Bool
  deviceType : String
  task : String
  ckptPath : String
  deriving DecidableEq

/-- Oracle for the external library calls made while processing one row:
the filename returned by model.export (or the exception it raises), the
(metric, speed) pair returned by export.val (or the exception it raises),
and the value of file_size(filename). -/
structure RowExternal where
  exportResult : Except PyExc String
  valResult : Except PyExc (ℚ × ℚ)
  sizeMB : ℚ
  deriving DecidableEq

/-- Character-list prefix test, used to embed the Python substring
operator needed by the device.type checks of the source. -/
def chPre : List Char → List Char → Bool
  | [], _ => true
  | _ :: _, [] => false
  | a :: as, b :: bs => a == b && chPre as bs

/-- Character-list infix test. -/
def chInf (needle : List Char) : List Char → Bool
  | [] => chPre needle []
  | b :: bs => chPre needle (b :: bs) || chInf needle bs

/-- Embeds the Python expression needle in hay on strings. -/
def strIn (needle hay : String) : Bool := chInf needle.toList hay.toList

/-- Floor of a rational, computed from its normalised representation. -/
def ratFloor (q : ℚ) : ℤ := Int.fdiv q.num (q.den : ℤ)

/-- Round-half-to-even to an integer, the rounding rule of the Python
built-in round. -/
def roundHalfEven (q : ℚ) : ℤ :=
  if q - (ratFloor q : ℚ) < 1/2 then ratFloor q
  else if (1 : ℚ)/2 < q - (ratFloor q : ℚ) then ratFloor q + 1
  else if ratFloor q % 2 = 0 then ratFloor q else ratFloor q + 1

/-- Embeds the Python call round(q, n) on our rational model of floats. -/
def pyRound (q : ℚ) (n : ℕ) : ℚ :=
  ((roundHalfEven (q * (10 : ℚ) ^ n) : ℤ) : ℚ) / (10 : ℚ) ^ n

/-- Embeds the data/key selection on model.task in the try body
(detect, segment, classify); any other task leaves data and key unbound. -/
def taskDataKey (task : String) : Option (String × String) :=
  if task = "detect" then some ("coco128.yaml", "metrics/mAP50-95(B)")
  else if task = "segment" then some ("coco128-seg.yaml", "metrics/mAP50-95(M)")
  else if task = "classify" then some ("imagenet100", "metrics/accuracy_top5")
  else none

/-- The straight-line assert statements that open the try body, in source
order: index 9 or 10 (Edge TPU, TF.js), index 5 off macOS (CoreML), then
the CPU and GPU support-flag checks against device.type. Returns the
message of the first assert that fails, if any. -/
def guardFail (env : BenchEnv) (i : ℕ) (row : FormatRow) : Option String :=
  if i == 9 || i == 10 then some "inference not supported"
  else if i == 5 && !env.darwin then some "inference only supported on macOS>=10.13"
  else if strIn "cpu" env.deviceType && !row.cpu then some "inference not supported on CPU"
  else if strIn "cuda" env.deviceType && !row.gpu then some "inference not supported on GPU"
  else none

/-- The try body of the loop of run_benchmarks for one row: the asserts,
the export step (the PyTorch row reuses model.ckpt_path, every other row
calls model.export), the suffix assert, the task-based data/key selection
(an unknown task leaves data unbound, so the val call raises NameError),
the val call, and the construction of the success row with its rounded
size, metric and speed. -/
def attempt (env : BenchEnv) (extRow : RowExternal) (i : ℕ) (row : FormatRow) :
    Except PyExc ResultRow :=
  match guardFail env i row with
  | some m => .error (.assertionError m)
  | none =>
    match (if row.format == "-" then Except.ok env.ckptPath else extRow.exportResult) with
    | .error e => .error e
    | .ok filename =>
      if strIn row.suffix filename then
        match taskDataKey env.task with
        | some _ =>
          match extRow.valResult with
          | .ok ms =>
            .ok ⟨row.name, "✅", some (pyRound extRow.sizeMB 1),
                 some (pyRound ms.1 4), some (pyRound ms.2 2)⟩
          | .error e => .error e
        | none => .error (.other "NameError" "name data is not defined")
      else .error (.assertionError "export failed")

/-- The null row appended by the except handler. -/
def failRow (n : String) : ResultRow := ⟨n, "❌", none, none, none⟩

/-- The LOGGER.warning text of the except handler. -/
def warnMsg (n : String) (e : PyExc) : String :=
  "ERROR ❌️ Benchmark failure for " ++ n ++ ": " ++ e.text

/-- The message of the AssertionError raised by the hard-fail escalation
assert in the except handler. -/
def escalMsg (n : String) (e : PyExc) : String :=
  "Benchmark --hard-fail for " ++ n ++ ": " ++ e.text

/-- One full loop iteration: the try body together with the except
handler. With a truthy hard_fail, a caught exception that is not an
AssertionError re-raises (as the AssertionError of the escalation
assert); otherwise the handler logs a warning and appends the null row. -/
def stepRow (hft : Bool) (env : BenchEnv) (extRow : RowExternal) (i : ℕ)
    (row : FormatRow) : Except PyExc (ResultRow × Option String) :=
  match attempt env extRow i row with
  | .ok r => .ok (r, none)
  | .error e =>
    if hft && !e.isAssert then .error (.assertionError (escalMsg row.name e))
    else .ok (failRow row.name, some (warnMsg row.name e))

/-- Outcome of the for loop of run_benchmarks: either it completed with
the results list y and the warnings logged, or an un-caught exception
escaped at some row, carrying the rows and warnings accumulated before. -/
inductive LoopOutcome where
  | completed (rows : List ResultRow) (warns : List String)
  | escalated (rows : List ResultRow) (warns : List String) (e : PyExc)
  deriving DecidableEq

/-- Prepend an optional warning to the log list. -/
def consOpt (w : Option String) (ws : List String) : List String :=
  match w with
  | some s => s :: ws
  | none => ws

/-- Prepend one iteration result to a loop outcome. -/
def prependOutcome (r : ResultRow) (w : Option String) : LoopOutcome → LoopOutcome
  | .completed rs ws => .completed (r :: rs) (consOpt w ws)
  | .escalated rs ws e => .escalated (r :: rs) (consOpt w ws) e

/-- The for loop of run_benchmarks over the export-format table, starting
at row index i, with per-row externals given by the oracle ext. -/
def runLoop (env : BenchEnv) (ext : ℕ → RowExternal) (hft : Bool) :
    ℕ → List FormatRow → LoopOutcome
  | _, [] => .completed [] []
  | i, row :: rest =>
    match stepRow hft env (ext i) i row with
    | .error e => .escalated [] [] e
    | .ok rw => prependOutcome rw.1 rw.2 (runLoop env ext hft (i + 1) rest)

/-- The hard_fail argument of run_benchmarks as the source uses it: the
caller passes either a bool (default False) or a floor-expression
string. -/
inductive HardFail where
  | bool (b : Bool)
  | str (s : String)
  deriving DecidableEq

/-- Python truthiness of the hard_fail argument: False/True for bools,
and non-emptiness for strings. -/
def pyTruthy : HardFail → Bool
  | .bool b => b
  | .str s => !(s == "")

/-- Embeds isinstance(hard_fail, str). -/
def hfIsStr : HardFail → Bool
  | .bool _ => false
  | .str _ => true

/-- The string payload of a hard_fail value (defaulting for bools, which
never reach the eval call). -/
def hfStrVal : HardFail → String
  | .bool _ => ""
  | .str s => s

/-- Embeds the generator test all(x > floor for x in metrics if
pd.notna(x)) over the metric column of the results table. -/
def floorCheckPasses (rows : List ResultRow) (fl : ℚ) : Bool :=
  rows.all fun r =>
    match r.metric with
    | some m => decide (fl < m)
    | none => true

/-- The message of the hard-fail floor AssertionError of the source. -/
def floorFailText (q : ℚ) : String := "HARD FAIL: metric < floor " ++ toString q

/-- The final hard-fail block of run_benchmarks (the two guarded lines
after the report): only entered when hard_fail is truthy AND a str; it
evaluates the floor expression (modelled by the oracle evalF) and asserts
every non-null metric strictly exceeds the floor. -/
def benchFloorPhase (rows : List ResultRow) (hf : HardFail) (evalF : String → ℚ) :
    Except PyExc Unit :=
  if pyTruthy hf && hfIsStr hf then
    if floorCheckPasses rows (evalF (hfStrVal hf)) then .ok ()
    else .error (.assertionError (floorFailText (evalF (hfStrVal hf))))
  else .ok ()

/-- run_benchmarks end to end on our model: the loop over the table
followed by the hard-fail floor block; an exception escaping either part
aborts the call. -/
def runBenchmarksModel (env : BenchEnv) (ext : ℕ → RowExternal) (hf : HardFail)
    (table : List FormatRow) (evalF : String → ℚ) :
    Except PyExc (List ResultRow × List String) :=
  match runLoop env ext (pyTruthy hf) 0 table with
  | .escalated _ _ e => .error e
  | .completed rows warns =>
    match benchFloorPhase rows hf evalF with
    | .ok _ => .ok (rows, warns)
    | .error e => .error e

/-! Report-printing branch of run_benchmarks (lines 88 and 92 of the
source): the conditions c = [...] if map else [...] and df if map else
df.iloc use the bare name map, which the script never assigns, so Python
resolves it through the builtin scope. -/

/-- Names bound in benchmarks.py when line 88 executes: the imports of
the module, the def itself, the parameters, the for-loop targets and the
local assignments of run_benchmarks. The name map is not among them. -/
def benchmarksBoundNames : List String :=
  ["platform", "time", "Path", "pd", "torch", "YOLO", "export_formats",
   "LOGGER", "SETTINGS", "check_yolo", "file_size", "run_benchmarks",
   "model", "imgsz", "half", "device", "hard_fail", "y", "t0",
   "i", "name", "format", "suffix", "cpu", "gpu",
   "filename", "data", "key", "results", "metric", "speed", "e",
   "c", "df", "metrics", "floor"]

/-- The Python builtin names the module relies on. -/
def pyBuiltinNames : List String :=
  ["map", "all", "round", "isinstance", "eval", "int", "str", "type",
   "AssertionError", "Exception"]

/-- How a bare name at line 88 of benchmarks.py resolves. -/
inductive PyNameKind where
  | scriptBound
  | builtinFunction
  deriving DecidableEq

/-- Python name resolution for benchmarks.py at line 88: script bindings
shadow builtins; a name in neither scope is undefined (would raise
NameError). -/
def resolveBenchName (n : String) : Option PyNameKind :=
  if benchmarksBoundNames.contains n then some .scriptBound
  else if pyBuiltinNames.contains n then some .builtinFunction
  else none

/-- Truthiness of the object the name map denotes at line 88: it resolves
to the builtin function map, and a Python function object is truthy. A
genuinely undefined name would raise rather than branch. -/
def line88CondTruthy : Bool :=
  match resolveBenchName "map" with
  | some .builtinFunction => true
  | _ => false

/-- The column list c chosen at line 88 of the source. -/
def reportColumns (key : String) : List String :=
  if line88CondTruthy then
    ["Format", "Status❔", "Size (MB)", key, "Inference time (ms/im)"]
  else ["Format", "Export", "", ""]

/-- The dataframe printed at line 92: the full table, or df.iloc sliced
to its first two columns. -/
inductive PrintedFrame where
  | full (rows : List ResultRow)
  | firstTwoCols (cells : List (String × String))
  deriving DecidableEq

/-- The df if map else df.iloc branch at line 92 of the source. -/
def printedFrame (rows : List ResultRow) : PrintedFrame :=
  if line88CondTruthy then .full rows
  else .firstTwoCols (rows.map fun r => (r.name, r.status))

/-! Embedding of src/yolo.py: argument parsing and the four-way mode
dispatch of the __main__ block. -/

/-- One add_argument call of parse_args: the flag and its default. -/
structure ArgOpt where
  flag : String
  dflt : String
  deriving DecidableEq

/-- The two options parse_args defines, in source order, with the
defaults of the source. -/
def yoloOpts : List ArgOpt := [⟨"--mode", "train"⟩, ⟨"--cfg", "cfg.yaml"⟩]

/-- The parsed argument namespace of yolo.py. -/
structure CliArgs where
  mode : String
  cfg : String
  deriving DecidableEq

/-- First value supplied on the command line for a flag. -/
def lookupOpt (supplied : List (String × String)) (flag : String) : Option String :=
  (supplied.find? fun p => p.1 == flag).map fun p => p.2

/-- parse_args on a command line given as flag/value pairs: argparse
rejects any flag that was not added, and fills each omitted option with
the default of its add_argument call. -/
def parseArgs (supplied : List (String × String)) : Option CliArgs :=
  if supplied.all (fun p => yoloOpts.any fun o => o.flag == p.1) then
    some ⟨(lookupOpt supplied "--mode").getD "train",
          (lookupOpt supplied "--cfg").getD "cfg.yaml"⟩
  else none

/-- The four model operations yolo.py can dispatch to. -/
inductive ModelOp where
  | train
  | predict
  | val
  | exportOp
  deriving DecidableEq

/-- The if/elif chain of the __main__ block: which model method the mode
string selects; no branch matches any other string. -/
def dispatch (mode : String) : Option ModelOp :=
  if mode = "train" then some .train
  else if mode = "predict" then some .predict
  else if mode = "val" then some .val
  else if mode = "export" then some .exportOp
  else none

/-- Observable side effects of the __main__ block of yolo.py, in
program order. -/
inductive YoloEffect where
  | checkYaml (cfg : String)
  | yamlLoad (cfg : String)
  | readModelEntry (key : String)
  | constructModel (file : String)
  | invoke (op : ModelOp) (cfg : String)
  deriving DecidableEq

/-- The effect trace of the __main__ block: check_yaml on the cfg path,
yaml_load on it, the read of the model entry of the overrides, the YOLO
construction on that file, then the dispatched method call, if any.
modelFile stands for the value the loaded configuration holds under
model. -/
def mainTrace (mode cfg modelFile : String) : List YoloEffect :=
  [.checkYaml cfg, .yamlLoad cfg, .readModelEntry "model", .constructModel modelFile] ++
  (match dispatch mode with
   | some op => [.invoke op cfg]
   | none => [])

/-- The model operations a trace invokes. -/
def invokedOps (t : List YoloEffect) : List ModelOp :=
  t.filterMap fun ev =>
    match ev with
    | .invoke op _ => some op
    | _ => none

/-! Theorems. -/

/-- An unsupported combination in the sense of the format-table guards:
Edge TPU or TF.js (rows 9 and 10), CoreML (row 5) on a non-Apple host, or
a support flag that does not match the selected device. -/
def unsupportedCombo (env : BenchEnv) (i : ℕ) (row : FormatRow) : Bool :=
  (i == 9 || i == 10) ||
  (i == 5 && !env.darwin) ||
  (strIn "cpu" env.deviceType && !row.cpu) ||
  (strIn "cuda" env.deviceType && !row.gpu)

/-- On an unsupported combination some guard assert fires. -/
theorem unsupportedCombo_guard (env : BenchEnv) (i : ℕ) (row : FormatRow)
    (h : unsupportedCombo env i row = true) :
    (guardFail env i row).isSome = true := by
  unfold guardFail
  split
  · rfl
  · split
    · rfl
    · split
      · rfl
      · split
        · rfl
        · exfalso
          unfold unsupportedCombo at h
          simp_all

/-- The try body raised an AssertionError. -/
def raisesAssert : Except PyExc ResultRow → Bool
  | .error (.assertionError _) => true
  | _ => false

/-- The iteration finished normally, logging a warning and appending the
null row for the given format name. -/
def recordsFailure (n : String) : Except PyExc (ResultRow × Option String) → Bool
  | .ok (r, some _) => r == failRow n
  | _ => false

/-- C1: for every row of the format table, an unsupported combination
(Edge TPU, TF.js, CoreML off macOS, or a CPU/GPU flag not matching the
device) makes the try body fail on one of its opening asserts — before
any export or validate call, whatever the externals would return — and
the iteration records the format as a failed (null) row and returns
normally instead of letting the exception escape the loop, under any
hard_fail setting. -/
theorem c1_unsupported_recorded_failed (env : BenchEnv) (i : ℕ) (row : FormatRow)
    (h : unsupportedCombo env i row = true) :
    ∀ extRow hft,
      raisesAssert (attempt env extRow i row) = true ∧
      recordsFailure row.name (stepRow hft env extRow i row) = true := by
  intro extRow hft
  have hg := unsupportedCombo_guard env i row h
  obtain ⟨m, hm⟩ := Option.isSome_iff_exists.mp hg
  constructor
  · unfold attempt
    rw [hm]
    rfl
  · unfold stepRow attempt
    rw [hm]
    simp [PyExc.isAssert, recordsFailure]

/-- Witness for C1 at the Edge TPU row (index 9) on a CPU host. -/
theorem c1_unsupported_recorded_failed_witness :
    raisesAssert
      (attempt ⟨false, "cpu", "detect", "yolov8n.pt"⟩
        ⟨.ok "yolov8n_edgetpu.tflite", .ok (1/2, 3), 6⟩ 9
        ⟨"TensorFlow Edge TPU", "edgetpu", "_edgetpu.tflite", true, false⟩) = true ∧
    recordsFailure "TensorFlow Edge TPU"
      (stepRow true ⟨false, "cpu", "detect", "yolov8n.pt"⟩
        ⟨.ok "yolov8n_edgetpu.tflite", .ok (1/2, 3), 6⟩ 9
        ⟨"TensorFlow Edge TPU", "edgetpu", "_edgetpu.tflite", true, false⟩) = true :=
  c1_unsupported_recorded_failed ⟨false, "cpu", "detect", "yolov8n.pt"⟩ 9
    ⟨"TensorFlow Edge TPU", "edgetpu", "_edgetpu.tflite", true, false⟩ (by decide)
    ⟨.ok "yolov8n_edgetpu.tflite", .ok (1/2, 3), 6⟩ true

/-- Unfolding equation of runLoop on a non-empty table. -/
theorem runLoop_cons (env : BenchEnv) (ext : ℕ → RowExternal) (hft : Bool)
    (i : ℕ) (row : FormatRow) (rest : List FormatRow) :
    runLoop env ext hft i (row :: rest) =
      match stepRow hft env (ext i) i row with
      | .error e => .escalated [] [] e
      | .ok rw => prependOutcome rw.1 rw.2 (runLoop env ext hft (i + 1) rest) := rfl

/-- C3: with a truthy hard_fail, when the try body for a row raises, the
except handler escalates any exception that is not an AssertionError —
the loop aborts at that row with the AssertionError of the escalation
assert, processing no further rows — while an AssertionError is still
downgraded to a warning plus a null row and the loop continues with the
remaining rows. -/
theorem c3_hard_fail_escalates_non_assertions (env : BenchEnv) (ext : ℕ → RowExternal)
    (hf : HardFail) (i : ℕ) (row : FormatRow) (rest : List FormatRow) (e : PyExc)
    (hhf : pyTruthy hf = true)
    (hatt : attempt env (ext i) i row = .error e) :
    (e.isAssert = false →
      runLoop env ext (pyTruthy hf) i (row :: rest) =
        .escalated [] [] (.assertionError (escalMsg row.name e))) ∧
    (e.isAssert = true →
      runLoop env ext (pyTruthy hf) i (row :: rest) =
        prependOutcome (failRow row.name) (some (warnMsg row.name e))
          (runLoop env ext (pyTruthy hf) (i + 1) rest)) := by
  rw [hhf]
  constructor
  · intro hA
    have hstep : stepRow true env (ext i) i row =
        .error (.assertionError (escalMsg row.name e)) := by
      unfold stepRow
      rw [hatt]
      simp [hA]
    rw [runLoop_cons, hstep]
  · intro hA
    have hstep : stepRow true env (ext i) i row =
        .ok (failRow row.name, some (warnMsg row.name e)) := by
      unfold stepRow
      rw [hatt]
      simp [hA]
    rw [runLoop_cons, hstep]

/-- Witness for C3: a RuntimeError from the export call of the
TorchScript row under hard_fail True aborts the loop. -/
theorem c3_hard_fail_escalates_non_assertions_witness :
    runLoop ⟨false, "cpu", "detect", "yolov8n.pt"⟩
      (fun _ => ⟨.error (.other "RuntimeError" "boom"), .ok (1/2, 3), 6⟩)
      (pyTruthy (.bool true)) 1
      [⟨"TorchScript", "torchscript", ".torchscript", true, true⟩] =
      .escalated [] []
        (.assertionError (escalMsg "TorchScript" (.other "RuntimeError" "boom"))) :=
  (c3_hard_fail_escalates_non_assertions ⟨false, "cpu", "detect", "yolov8n.pt"⟩
    (fun _ => ⟨.error (.other "RuntimeError" "boom"), .ok (1/2, 3), 6⟩)
    (.bool true) 1 ⟨"TorchScript", "torchscript", ".torchscript", true, true⟩ []
    (.other "RuntimeError" "boom") rfl (by decide)).1 rfl

/-- What one iteration contributes when nothing escalates: the success
row of the try body, or the null row plus the logged warning. -/
def rowOutcome (env : BenchEnv) (extRow : RowExternal) (i : ℕ) (row : FormatRow) :
    ResultRow × Option String :=
  match attempt env extRow i row with
  | .ok r => (r, none)
  | .error e => (failRow row.name, some (warnMsg row.name e))

/-- The rows and warnings the loop accumulates when no iteration
escalates. -/
def softRun (env : BenchEnv) (ext : ℕ → RowExternal) :
    ℕ → List FormatRow → List ResultRow × List String
  | _, [] => ([], [])
  | i, row :: rest =>
    ((rowOutcome env (ext i) i row).1 :: (softRun env ext (i + 1) rest).1,
     consOpt (rowOutcome env (ext i) i row).2 (softRun env ext (i + 1) rest).2)

/-- With a falsy hard_fail the except handler never re-raises. -/
theorem stepRow_false (env : BenchEnv) (extRow : RowExternal) (i : ℕ) (row : FormatRow) :
    stepRow false env extRow i row = .ok (rowOutcome env extRow i row) := by
  unfold stepRow rowOutcome
  cases attempt env extRow i row <;> simp

/-- C6: with a falsy hard_fail, every exception raised by a format
attempt is caught: the loop always completes — no per-format failure
escapes — contributing per row exactly the rowOutcome of its attempt,
which on any exception is the null row (all three measurement fields
None) together with the logged warning. -/
theorem c6_soft_mode_catches_all (env : BenchEnv) (ext : ℕ → RowExternal)
    (hf : HardFail) (i : ℕ) (table : List FormatRow)
    (hhf : pyTruthy hf = false) :
    runLoop env ext (pyTruthy hf) i table =
      .completed (softRun env ext i table).1 (softRun env ext i table).2 ∧
    ∀ extRow j row e, attempt env extRow j row = .error e →
      rowOutcome env extRow j row = (failRow row.name, some (warnMsg row.name e)) := by
  rw [hhf]
  constructor
  · induction table generalizing i with
    | nil => rfl
    | cons row rest ih =>
      rw [runLoop_cons, stepRow_false, ih (i + 1)]
      rfl
  · intro extRow j row e hatt
    unfold rowOutcome
    rw [hatt]

/-- Witness for C6: with hard_fail False, a table whose second row fails
its export still completes, with a null row and warning for it. -/
theorem c6_soft_mode_catches_all_witness :
    runLoop ⟨false, "cpu", "detect", "yolov8n.pt"⟩
      (fun _ => ⟨.error (.other "RuntimeError" "boom"), .ok (1/2, 3), 6⟩)
      (pyTruthy (.bool false)) 0
      [⟨"PyTorch", "-", ".pt", true, true⟩,
       ⟨"TorchScript", "torchscript", ".torchscript", true, true⟩] =
      .completed
        ((softRun ⟨false, "cpu", "detect", "yolov8n.pt"⟩
          (fun _ => ⟨.error (.other "RuntimeError" "boom"), .ok (1/2, 3), 6⟩) 0
          [⟨"PyTorch", "-", ".pt", true, true⟩,
           ⟨"TorchScript", "torchscript", ".torchscript", true, true⟩]).1)
        ((softRun ⟨false, "cpu", "detect", "yolov8n.pt"⟩
          (fun _ => ⟨.error (.other "RuntimeError" "boom"), .ok (1/2, 3), 6⟩) 0
          [⟨"PyTorch", "-", ".pt", true, true⟩,
           ⟨"TorchScript", "torchscript", ".torchscript", true, true⟩]).2) :=
  (c6_soft_mode_catches_all ⟨false, "cpu", "detect", "yolov8n.pt"⟩
    (fun _ => ⟨.error (.other "RuntimeError" "boom"), .ok (1/2, 3), 6⟩)
    (.bool false) 0
    [⟨"PyTorch", "-", ".pt", true, true⟩,
     ⟨"TorchScript", "torchscript", ".torchscript", true, true⟩] rfl).1

/-- A results row is well formed: the success mark with all three
measurement fields present, or the failure mark with all three None. -/
def rowWellFormed (r : ResultRow) : Bool :=
  ((r.status == "✅") && r.size.isSome && r.metric.isSome && r.speed.isSome) ||
  ((r.status == "❌") && r.size.isNone && r.metric.isNone && r.speed.isNone)

/-- The failure mark appears exactly when the three measurement fields
are all None. -/
def statusMatchesNulls (r : ResultRow) : Bool :=
  (r.status == "❌") == (r.size.isNone && r.metric.isNone && r.speed.isNone)

/-- The results list has exactly one row per table row, in order, each
carrying the name of its format and well formed. -/
def rowsMatchTable (table : List FormatRow) (rows : List ResultRow) : Bool :=
  (rows.length == table.length) &&
  (List.zip table rows).all fun p =>
    (p.2.name == p.1.name) && rowWellFormed p.2 && statusMatchesNulls p.2

/-- A successful try body yields the success row of its format. -/
theorem attempt_ok_shape (env : BenchEnv) (extRow : RowExternal) (i : ℕ)
    (row : FormatRow) (r : ResultRow) (h : attempt env extRow i row = .ok r) :
    r.name = row.name ∧ r.status = "✅" ∧
    r.size.isSome = true ∧ r.metric.isSome = true ∧ r.speed.isSome = true := by
  unfold attempt at h
  repeat' split at h
  all_goals first
    | (cases h; simp)
    | simp at h

/-- Every normally-finishing iteration contributes a row named after its
format, well formed, with the failure mark exactly on the all-None
rows. -/
theorem stepRow_shape (hft : Bool) (env : BenchEnv) (extRow : RowExternal)
    (i : ℕ) (row : FormatRow) (rw : ResultRow × Option String)
    (h : stepRow hft env extRow i row = .ok rw) :
    ((rw.1.name == row.name) && rowWellFormed rw.1 && statusMatchesNulls rw.1) = true := by
  unfold stepRow at h
  split at h
  case h_1 r heq =>
    cases h
    obtain ⟨h1, h2, h3, h4, h5⟩ := attempt_ok_shape env extRow i row r heq
    cases hs : r.size <;> cases hm : r.metric <;> cases hsp : r.speed <;>
      simp_all [rowWellFormed, statusMatchesNulls]
  case h_2 e heq =>
    split at h
    · simp at h
    · cases h
      simp [failRow, rowWellFormed, statusMatchesNulls]

/-- C9: whenever the loop completes (no escalated failure), the results
list matches the format table row for row: same length, same order and
names, every row either a fully-measured success row or an all-None
failure row, with the failure mark exactly on the all-None rows. -/
theorem c9_loop_invariant (env : BenchEnv) (ext : ℕ → RowExternal) (hft : Bool)
    (i : ℕ) (table : List FormatRow) (rows : List ResultRow) (warns : List String)
    (h : runLoop env ext hft i table = .completed rows warns) :
    rowsMatchTable table rows = true := by
  induction table generalizing i rows warns with
  | nil =>
    unfold runLoop at h
    cases h
    rfl
  | cons row rest ih =>
    rw [runLoop_cons] at h
    cases hstep : stepRow hft env (ext i) i row with
    | error e =>
      rw [hstep] at h
      simp at h
    | ok rw =>
      rw [hstep] at h
      cases hrec : runLoop env ext hft (i + 1) rest with
      | escalated rs ws e =>
        rw [hrec] at h
        simp [prependOutcome] at h
      | completed rs ws =>
        rw [hrec] at h
        simp only [prependOutcome, LoopOutcome.completed.injEq] at h
        obtain ⟨hrows, _⟩ := h
        subst hrows
        have hsh := stepRow_shape hft env (ext i) i row rw hstep
        have hih := ih (i + 1) rs ws hrec
        unfold rowsMatchTable at hih ⊢
        simp only [List.zip_cons_cons, List.all_cons, List.length_cons,
          Bool.and_eq_true, beq_iff_eq] at hih ⊢
        obtain ⟨hlen, hall⟩ := hih
        simp only [Bool.and_eq_true, beq_iff_eq] at hsh
        exact ⟨by omega, hsh, hall⟩

/-- Witness for C9: a two-row run (a success and a guarded failure). -/
theorem c9_loop_invariant_witness :
    rowsMatchTable
      [⟨"PyTorch", "-", ".pt", true, true⟩,
       ⟨"TensorFlow Edge TPU", "edgetpu", "_edgetpu.tflite", true, false⟩]
      [⟨"PyTorch", "✅", some (pyRound 6 1), some (pyRound (mkRat 1 2) 4), some (pyRound 3 2)⟩,
       failRow "TensorFlow Edge TPU"] = true :=
  c9_loop_invariant ⟨false, "cpu", "detect", "yolov8n.pt"⟩
    (fun _ => ⟨.ok "other.onnx", .ok (mkRat 1 2, 3), 6⟩) true 8
    [⟨"PyTorch", "-", ".pt", true, true⟩,
     ⟨"TensorFlow Edge TPU", "edgetpu", "_edgetpu.tflite", true, false⟩]
    [⟨"PyTorch", "✅", some (pyRound 6 1), some (pyRound (mkRat 1 2) 4), some (pyRound 3 2)⟩,
     failRow "TensorFlow Edge TPU"]
    [warnMsg "TensorFlow Edge TPU" (.assertionError "inference not supported")]
    rfl

/-- The floor check passes exactly when every measured metric strictly
exceeds the floor. -/
theorem floorCheckPasses_true_iff (rows : List ResultRow) (fl : ℚ) :
    floorCheckPasses rows fl = true ↔
      ∀ r ∈ rows, ∀ m, r.metric = some m → fl < m := by
  unfold floorCheckPasses
  rw [List.all_eq_true]
  constructor
  · intro h r hr m hm
    have hx := h r hr
    rw [hm] at hx
    simpa using hx
  · intro h r hr
    cases hm : r.metric with
    | none => simp
    | some m => simpa using h r hr m hm

/-- The floor check fails exactly when some measured metric is at or
below the floor. -/
theorem floorCheckPasses_false_iff (rows : List ResultRow) (fl : ℚ) :
    floorCheckPasses rows fl = false ↔
      ∃ r ∈ rows, ∃ m, r.metric = some m ∧ m ≤ fl := by
  rw [← Bool.not_eq_true, floorCheckPasses_true_iff]
  push_neg
  rfl

/-- C2: with a hard-fail floor expression supplied as a non-empty
string, the final block of run_benchmarks aborts with its AssertionError
exactly when some measured (non-None) metric of the results table is at
or below the evaluated floor; and a completed run all of whose measured
metrics are strictly above the floor returns normally. -/
theorem c2_floor_check_iff (rows : List ResultRow) (s : String) (evalF : String → ℚ)
    (hs : s ≠ "") :
    (benchFloorPhase rows (.str s) evalF =
        .error (.assertionError (floorFailText (evalF s))) ↔
      ∃ r ∈ rows, ∃ m, r.metric = some m ∧ m ≤ evalF s) ∧
    (∀ env ext table warns,
      runLoop env ext (pyTruthy (.str s)) 0 table = .completed rows warns →
      (∀ r ∈ rows, ∀ m, r.metric = some m → evalF s < m) →
      runBenchmarksModel env ext (.str s) table evalF = .ok (rows, warns)) := by
  have hcond : (pyTruthy (.str s) && hfIsStr (.str s)) = true := by
    simp [pyTruthy, hfIsStr, hs]
  have hphase : benchFloorPhase rows (.str s) evalF =
      if floorCheckPasses rows (evalF s) then Except.ok ()
      else .error (.assertionError (floorFailText (evalF s))) := by
    unfold benchFloorPhase
    rw [hcond]
    rfl
  constructor
  · rw [hphase]
    cases hfc : floorCheckPasses rows (evalF s)
    · simp only [Bool.false_eq_true, if_false]
      simp only [true_iff, eq_self_iff_true]
      exact (floorCheckPasses_false_iff rows (evalF s)).mp hfc
    · simp only [if_pos]
      constructor
      · intro hx
        exact absurd hx (by simp)
      · rintro ⟨r, hr, m, hm, hle⟩
        exact absurd hle (not_le.mpr ((floorCheckPasses_true_iff rows (evalF s)).mp hfc r hr m hm))
  · intro env ext table warns hloop hall
    have hpass : floorCheckPasses rows (evalF s) = true :=
      (floorCheckPasses_true_iff rows (evalF s)).mpr hall
    have hok : benchFloorPhase rows (.str s) evalF = .ok () := by
      rw [hphase, hpass]
      rfl
    unfold runBenchmarksModel
    rw [hloop]
    show (match benchFloorPhase rows (HardFail.str s) evalF with
          | .ok _ => Except.ok (rows, warns)
          | .error e => Except.error e) = Except.ok (rows, warns)
    rw [hok]

/-- Witness for C2: a results table holding a measured metric 1/4 is
rejected at floor 29/100. -/
theorem c2_floor_check_iff_witness :
    benchFloorPhase
      [failRow "OpenVINO", ⟨"PyTorch", "✅", some 6, some (mkRat 1 4), some 3⟩]
      (.str "0.29") (fun _ => mkRat 29 100) =
      .error (.assertionError (floorFailText (mkRat 29 100))) :=
  (c2_floor_check_iff
    [failRow "OpenVINO", ⟨"PyTorch", "✅", some 6, some (mkRat 1 4), some 3⟩]
    "0.29" (fun _ => mkRat 29 100) (by decide)).1.mpr
    ⟨⟨"PyTorch", "✅", some 6, some (mkRat 1 4), some 3⟩, by simp,
     mkRat 1 4, rfl, by decide⟩

/-- C4 counterexample: hard_fail set to the truthy boolean True does not
enforce the floor: a results table whose measured metric (0) lies below
any floor passes the final block untouched, while the same table under a
floor-expression string is rejected — the guard of the final block also
requires isinstance(hard_fail, str). -/
theorem c4_counterexample_bool_true_skips_floor :
    pyTruthy (.bool true) = true ∧
    benchFloorPhase [⟨"ONNX", "✅", some 6, some (mkRat 0 1), some 1⟩]
      (.bool true) (fun _ => 1) = .ok () ∧
    benchFloorPhase [⟨"ONNX", "✅", some 6, some (mkRat 0 1), some 1⟩]
      (.str "1") (fun _ => 1) =
      .error (.assertionError (floorFailText 1)) :=
  ⟨rfl, rfl, rfl⟩

/-- C4 amended: the numeric/metric floor is enforced only when hard_fail
is a truthy string: with hard_fail a bool — truthy True included — the
final block is skipped whatever the measured metrics, and with a
non-empty floor-expression string it aborts exactly when the floor check
fails. -/
theorem c4_amended_floor_only_for_string (rows : List ResultRow) (evalF : String → ℚ) :
    (∀ b, benchFloorPhase rows (.bool b) evalF = .ok ()) ∧
    (∀ s, s ≠ "" →
      benchFloorPhase rows (.str s) evalF =
        if floorCheckPasses rows (evalF s) then Except.ok ()
        else .error (.assertionError (floorFailText (evalF s)))) := by
  constructor
  · intro b
    unfold benchFloorPhase
    simp [hfIsStr]
  · intro s hs
    have hcond : (pyTruthy (.str s) && hfIsStr (.str s)) = true := by
      simp [pyTruthy, hfIsStr, hs]
    unfold benchFloorPhase
    rw [hcond]
    rfl

/-- Witness for C4 (amended): a non-empty floor string reaches the floor
check. -/
theorem c4_amended_floor_only_for_string_witness :
    benchFloorPhase [⟨"ONNX", "✅", some 6, some (mkRat 0 1), some 1⟩]
      (.str "0.29") (fun _ => mkRat 29 100) =
      if floorCheckPasses [⟨"ONNX", "✅", some 6, some (mkRat 0 1), some 1⟩]
           (mkRat 29 100)
      then Except.ok ()
      else .error (.assertionError (floorFailText (mkRat 29 100))) :=
  (c4_amended_floor_only_for_string
    [⟨"ONNX", "✅", some 6, some (mkRat 0 1), some 1⟩]
    (fun _ => mkRat 29 100)).2 "0.29" (by decide)

/-- C7 counterexample: the name map referenced by the report-printing
branches is not undefined — outside every binding the script makes, it
resolves to the Python builtin function map. -/
theorem c7_counterexample_map_is_defined :
    resolveBenchName "map" = some PyNameKind.builtinFunction ∧
    resolveBenchName "map" ≠ none := by
  constructor <;> decide

/-- C7 amended: the report-printing branches reference the always-truthy
Python builtin function map rather than a boolean flag computed by the
script, so the condition is constant — independent of every benchmark
result — and always selects the full five-column report, never the
reduced two-column branch. -/
theorem c7_amended_report_branch_constant :
    line88CondTruthy = true ∧
    (∀ key, reportColumns key =
      ["Format", "Status❔", "Size (MB)", key, "Inference time (ms/im)"]) ∧
    (∀ rows, printedFrame rows = .full rows) :=
  ⟨rfl, fun _ => rfl, fun _ => rfl⟩

/-- C5: a mode string other than train, predict, val and export matches
no branch of the dispatch of the __main__ block: no model operation is
selected and the trace of the script invokes none, for any configuration
path and model file. -/
theorem c5_unrecognized_mode_no_op (mode : String)
    (h1 : mode ≠ "train") (h2 : mode ≠ "predict")
    (h3 : mode ≠ "val") (h4 : mode ≠ "export") :
    dispatch mode = none ∧
    ∀ cfg modelFile, invokedOps (mainTrace mode cfg modelFile) = [] := by
  have hd : dispatch mode = none := by
    unfold dispatch
    simp [h1, h2, h3, h4]
  refine ⟨hd, ?_⟩
  intro cfg modelFile
  unfold mainTrace
  rw [hd]
  rfl

/-- Witness for C5 at the unrecognized mode foo. -/
theorem c5_unrecognized_mode_no_op_witness :
    dispatch "foo" = none ∧
    invokedOps (mainTrace "foo" "cfg.yaml" "yolov8n.pt") = [] :=
  ⟨(c5_unrecognized_mode_no_op "foo" (by decide) (by decide) (by decide) (by decide)).1,
   (c5_unrecognized_mode_no_op "foo" (by decide) (by decide) (by decide) (by decide)).2
     "cfg.yaml" "yolov8n.pt"⟩

/-- C10: with an unrecognized mode the __main__ block still performs
every side effect before the dispatch — the check_yaml validation, the
yaml_load of the configuration, the read of its model entry and the
construction of the model object — and nothing else: the trace is
exactly those four effects. -/
theorem c10_pre_dispatch_effects (mode cfg modelFile : String)
    (h1 : mode ≠ "train") (h2 : mode ≠ "predict")
    (h3 : mode ≠ "val") (h4 : mode ≠ "export") :
    mainTrace mode cfg modelFile =
      [.checkYaml cfg, .yamlLoad cfg, .readModelEntry "model",
       .constructModel modelFile] := by
  have hd : dispatch mode = none := by
    unfold dispatch
    simp [h1, h2, h3, h4]
  unfold mainTrace
  rw [hd]
  rfl

/-- Witness for C10 at the unrecognized mode foo. -/
theorem c10_pre_dispatch_effects_witness :
    mainTrace "foo" "cfg.yaml" "yolov8n.pt" =
      [.checkYaml "cfg.yaml", .yamlLoad "cfg.yaml", .readModelEntry "model",
       .constructModel "yolov8n.pt"] :=
  c10_pre_dispatch_effects "foo" "cfg.yaml" "yolov8n.pt"
    (by decide) (by decide) (by decide) (by decide)

/-- C8: parse_args defines exactly the two options --mode and --cfg; the
empty command line parses to the defaults train and cfg.yaml; every
successful parse fills an omitted option with its default; and a command
line carrying any other flag is rejected by the parser. -/
theorem c8_cli_surface :
    (yoloOpts.map ArgOpt.flag = ["--mode", "--cfg"]) ∧
    parseArgs [] = some ⟨"train", "cfg.yaml"⟩ ∧
    (∀ supplied r, parseArgs supplied = some r →
      (lookupOpt supplied "--mode" = none → r.mode = "train") ∧
      (lookupOpt supplied "--cfg" = none → r.cfg = "cfg.yaml")) ∧
    (∀ supplied p, p ∈ supplied → p.1 ≠ "--mode" → p.1 ≠ "--cfg" →
      parseArgs supplied = none) := by
  refine ⟨rfl, rfl, ?_, ?_⟩
  · intro supplied r hr
    unfold parseArgs at hr
    split at hr
    · cases hr
      constructor
      · intro hm
        simp [hm]
      · intro hc
        simp [hc]
    · simp at hr
  · intro supplied p hp hm hc
    unfold parseArgs
    rw [if_neg]
    intro hall
    rw [List.all_eq_true] at hall
    have hx := hall p hp
    simp only [yoloOpts, List.any_cons, List.any_nil, Bool.or_eq_true,
      Bool.or_false, beq_iff_eq] at hx
    rcases hx with h | h
    · exact hm h.symm
    · exact hc h.symm

/-- Witness for C8: omitting --mode yields the default train, and an
unknown flag is rejected. -/
theorem c8_cli_surface_witness :
    parseArgs [("--cfg", "custom.yaml")] = some ⟨"train", "custom.yaml"⟩ ∧
    (⟨"train", "custom.yaml"⟩ : CliArgs).mode = "train" ∧
    parseArgs [("--foo", "1")] = none :=
  ⟨by decide,
   (c8_cli_surface.2.2.1 [("--cfg", "custom.yaml")] ⟨"train", "custom.yaml"⟩
      (by decide)).1 (by decide),
   c8_cli_surface.2.2.2 [("--foo", "1")] ("--foo", "1")
     (by decide) (by decide) (by decide)⟩
